import Mathlib

/-!
Shallow embedding of `src/app.py` (Flask attendance system).

The relational store is modelled as in-memory lists; SQLAlchemy's
autoincrement primary keys are modelled by `nextLinkId`/`nextAttendeeId`
(one more than the current maximum id).  The signed session cookie is a
single boolean flag `admin_logged_in` (absent = `false`, since
`session.get` returns `None` for a missing key and `session.pop` of a
missing key is a no-op).  Flask form fields (`request.form.get`) are
`Option String`: `none` models a missing field, and Python's truthiness
test `not name` is modelled by `name.getD "" = ""` (true for both `None`
and `""`).  `uuid.uuid4()` and `datetime.utcnow()` are modelled as
explicit parameters of the operations that call them.
-/

namespace AttendanceSystem

/-- A wall-clock instant, standing in for Python `datetime`.  Only the six
components printed by `strftime('%Y-%m-%d %H:%M:%S')` are kept. -/
structure Timestamp where
  year : Nat
  month : Nat
  day : Nat
  hour : Nat
  minute : Nat
  second : Nat
deriving DecidableEq, Repr

/-- Linearisation of a `Timestamp` used for chronological comparison
(the components are combined with strictly dominating weights, so the
order agrees with lexicographic year/month/day/hour/minute/second). -/
def Timestamp.key (t : Timestamp) : Nat :=
  ((((t.year * 13 + t.month) * 32 + t.day) * 24 + t.hour) * 60 + t.minute) * 60 + t.second

/-- Zero-pad to two digits, as Python `%m %d %H %M %S` do. -/
def pad2 (n : Nat) : String :=
  if n < 10 then "0" ++ toString n else toString n

/-- Zero-pad to four digits, as Python `%Y` does for years below 10000. -/
def pad4 (n : Nat) : String :=
  if n < 10 then "000" ++ toString n
  else if n < 100 then "00" ++ toString n
  else if n < 1000 then "0" ++ toString n
  else toString n

/-- `timestamp.strftime('%Y-%m-%d %H:%M:%S')` from `export_csv`. -/
def Timestamp.strftime (t : Timestamp) : String :=
  pad4 t.year ++ "-" ++ pad2 t.month ++ "-" ++ pad2 t.day ++ " " ++
    pad2 t.hour ++ ":" ++ pad2 t.minute ++ ":" ++ pad2 t.second

/-- Row of the `AccessLink` table (`class AccessLink(db.Model)`). -/
structure AccessLink where
  id : Nat
  token : String
  is_active : Bool
  created_at : Nat
deriving DecidableEq, Repr

/-- Row of the `Attendee` table (`class Attendee(db.Model)`). -/
structure Attendee where
  id : Nat
  name : String
  role : String
  group : Option String
  timestamp : Timestamp
  access_token_used : String
deriving DecidableEq, Repr

/-- The whole persistent/session state visible to one request: the two
tables plus the admin session flag. -/
structure AppState where
  links : List AccessLink
  attendees : List Attendee
  admin_logged_in : Bool
deriving DecidableEq, Repr

/-- Number of rows of the `AccessLink` table with `is_active = true`. -/
def activeCount (ls : List AccessLink) : Nat :=
  (ls.filter (fun l => l.is_active)).length

/-- `AccessLink.query.update({AccessLink.is_active: False})`. -/
def deactivateAll (ls : List AccessLink) : List AccessLink :=
  ls.map (fun l => { l with is_active := false })

/-- Autoincrement primary key for the `AccessLink` table. -/
def nextLinkId (ls : List AccessLink) : Nat :=
  ls.foldl (fun m l => max m l.id) 0 + 1

/-- Autoincrement primary key for the `Attendee` table. -/
def nextAttendeeId (as : List Attendee) : Nat :=
  as.foldl (fun m a => max m a.id) 0 + 1

/-- A freshly constructed `AccessLink()` row: autoincrement id, the token
produced by `uuid.uuid4()` (passed in as `tok`), the column defaults
`is_active = True` and `created_at = now`. -/
def newLink (ls : List AccessLink) (tok : String) (now : Nat) : AccessLink :=
  { id := nextLinkId ls, token := tok, is_active := true, created_at := now }

/-- `generate_link` (src/app.py lines 152-163): deactivate every existing
link, then insert one new link with the freshly generated token `tok`
(modelling `uuid.uuid4()`), `is_active = True` and `created_at = now`. -/
def generate_link (st : AppState) (tok : String) (now : Nat) : AppState :=
  { st with links := deactivateAll st.links ++ [newLink st.links tok now] }

/-- `toggle_link_status` (src/app.py lines 165-179).
`AccessLink.query.get_or_404(link_id)` is the primary-key lookup; `none`
models the 404 abort.  If the target is inactive, every link is
deactivated and the target re-activated; otherwise only the target is
deactivated. -/
def toggle_link_status (st : AppState) (link_id : Nat) : Option AppState :=
  match st.links.find? (fun l => l.id == link_id) with
  | none => none
  | some link =>
    if !link.is_active then
      some { st with links := st.links.map (fun l => { l with is_active := l.id == link_id }) }
    else
      some { st with links := st.links.map (fun l =>
        if l.id == link_id then { l with is_active := false } else l) }

/-- HTTP method of a request to a route accepting GET and POST. -/
inductive Method where
  | get
  | post
deriving DecidableEq, Repr

/-- Outcome of the `/register/<token>` route. -/
inductive RegisterResult where
  | notFound
  | validationError (token : String)
  | success
  | form (token : String) (roles : List String)
deriving DecidableEq, Repr

/-- The hardcoded role dropdown of the registration form. -/
def registerRoles : List String :=
  ["Member", "Leader", "Guest", "First-timer", "Volunteer"]

/-- `register` (src/app.py lines 62-89).  The active-link lookup
`AccessLink.query.filter_by(token=token, is_active=True).first()` runs on
every request, before anything else; on `None` the route renders the
invalid-link page with status 404.  On POST, `not name or not role`
flashes an error and redirects back to `/register/<token>`
(`validationError token`); otherwise a new `Attendee` row is inserted and
the request redirects to `/success`. -/
def register (st : AppState) (method : Method) (token : String)
    (name role group : Option String) (now : Timestamp) : RegisterResult × AppState :=
  match st.links.find? (fun l => l.token == token && l.is_active) with
  | none => (.notFound, st)
  | some _ =>
    match method with
    | .post =>
      if name.getD "" = "" || role.getD "" = "" then
        (.validationError token, st)
      else
        (.success, { st with attendees := st.attendees ++
          [{ id := nextAttendeeId st.attendees, name := name.getD "", role := role.getD "",
             group := group, timestamp := now, access_token_used := token }] })
    | .get => (.form token registerRoles, st)

/-- Outcome of the `/admin/login` route. -/
inductive LoginResult where
  | redirectDashboard
  | loginFailed (message : String)
  | loginPage
deriving DecidableEq, Repr

/-- The single generic flash message used for any credential mismatch. -/
def invalidCredentialsMessage : String := "Invalid credentials. Please try again."

/-- `admin_login` (src/app.py lines 100-114), parameterised by the two
configured credentials (`ADMIN_USERNAME`/`ADMIN_PASSWORD` from the
environment).  An already-authenticated session is redirected to the
dashboard before the method or the form is even looked at.  Form fields
are `Option String`; in Python a missing field is `None` and
`None == ADMIN_USERNAME` is `False`. -/
def admin_login (adminUsername adminPassword : String) (st : AppState)
    (method : Method) (username password : Option String) : LoginResult × AppState :=
  if st.admin_logged_in then
    (.redirectDashboard, st)
  else
    match method with
    | .post =>
      if username == some adminUsername && password == some adminPassword then
        (.redirectDashboard, { st with admin_logged_in := true })
      else
        (.loginFailed invalidCredentialsMessage, st)
    | .get => (.loginPage, st)

/-- Outcome of an admin route (or of its `login_required` guard). -/
inductive AdminResult where
  | unauthorized
  | loggedOut
  | dashboard (attendees : List Attendee) (links : List AccessLink)
      (active_link : Option AccessLink)
  | linkGenerated
  | linkToggled
  | notFound
  | csv (rows : List (List String))
deriving DecidableEq, Repr

/-- The `login_required` decorator (src/app.py lines 52-59): if
`session.get('admin_logged_in')` is falsy, flash a warning and redirect to
the login view without running the wrapped handler. -/
def login_required (st : AppState)
    (handler : AppState → AdminResult × AppState) : AdminResult × AppState :=
  if st.admin_logged_in then handler st else (.unauthorized, st)

/-- `admin_logout` (src/app.py lines 116-120).  Note: this route has no
`@login_required` decorator in the source; it unconditionally pops the
session flag and redirects to the login view. -/
def admin_logout (st : AppState) : AdminResult × AppState :=
  (.loggedOut, { st with admin_logged_in := false })

/-- The set of recognised sort columns (`sortable_columns`). -/
def sortable_columns : List String := ["name", "role", "group", "timestamp"]

/-- SQL ordering on a nullable text column: `NULL` sorts before every
value (SQLite default), otherwise ordinary string order. -/
def optLe (a b : Option String) : Bool :=
  match a, b with
  | none, _ => true
  | some _, none => false
  | some x, some y => decide (x ≤ y)

/-- Ascending row comparison for `order_by(getattr(Attendee, sort_by))`. -/
def attendeeLe (sort_by : String) (a b : Attendee) : Bool :=
  if sort_by == "name" then decide (a.name ≤ b.name)
  else if sort_by == "role" then decide (a.role ≤ b.role)
  else if sort_by == "group" then optLe a.group b.group
  else decide (a.timestamp.key ≤ b.timestamp.key)

/-- The attendee list as computed by the dashboard's sorting logic
(src/app.py lines 126-139): an unrecognised `sort_by` falls back to
`timestamp`; `order == 'asc'` sorts ascending, anything else descending. -/
def dashboardAttendees (attendees : List Attendee) (sort_by order : String) : List Attendee :=
  let sb := if sortable_columns.contains sort_by then sort_by else "timestamp"
  if order == "asc" then
    attendees.mergeSort (attendeeLe sb)
  else
    attendees.mergeSort (fun a b => attendeeLe sb b a)

/-- `admin_dashboard` (src/app.py lines 122-150), i.e. the spec's
`list(sortBy, order)`: the sorted attendees, all links ordered by
`created_at` descending, and the currently active link if any. -/
def admin_dashboard (st : AppState) (sort_by order : String) : AdminResult :=
  .dashboard (dashboardAttendees st.attendees sort_by order)
    (st.links.mergeSort (fun a b => decide (b.created_at ≤ a.created_at)))
    (st.links.find? (fun l => l.is_active))

/-- The `/admin/dashboard` route with its `login_required` guard. -/
def admin_dashboard_route (sort_by order : String) (st : AppState) : AdminResult × AppState :=
  login_required st (fun s => (admin_dashboard s sort_by order, s))

/-- The `/admin/generate-link` route with its `login_required` guard. -/
def generate_link_route (tok : String) (now : Nat) (st : AppState) : AdminResult × AppState :=
  login_required st (fun s => (.linkGenerated, generate_link s tok now))

/-- The `/admin/toggle-link/<id>` route with its `login_required` guard. -/
def toggle_link_route (link_id : Nat) (st : AppState) : AdminResult × AppState :=
  login_required st (fun s =>
    match toggle_link_status s link_id with
    | none => (.notFound, s)
    | some s' => (.linkToggled, s'))

/-- The CSV header row written by `export_csv`. -/
def csvHeader : List String :=
  ["ID", "Name", "Role", "Group", "Timestamp (UTC)", "Access Token Used"]

/-- One data row of the CSV export.  Python's `csv.writer` renders `None`
as the empty string, hence `group.getD ""`. -/
def attendeeRow (a : Attendee) : List String :=
  [toString a.id, a.name, a.role, a.group.getD "", a.timestamp.strftime, a.access_token_used]

/-- `export_csv` (src/app.py lines 181-210): all attendees ordered by
timestamp descending, serialised as a header row followed by one row per
attendee. -/
def export_csv (attendees : List Attendee) : List (List String) :=
  csvHeader ::
    (attendees.mergeSort (fun a b => decide (b.timestamp.key ≤ a.timestamp.key))).map attendeeRow

/-- The `/admin/export-csv` route with its `login_required` guard. -/
def export_csv_route (st : AppState) : AdminResult × AppState :=
  login_required st (fun s => (.csv (export_csv s.attendees), s))

/-- One admin link-management action, for reasoning about sequences of
operations.  The token/time arguments model the fresh `uuid.uuid4()` and
`utcnow()` of each `generate_link` call. -/
inductive AdminOp where
  | generate (tok : String) (now : Nat)
  | toggle (link_id : Nat)
deriving DecidableEq, Repr

/-- Apply one admin operation to the state; a toggle of an unknown id
aborts with 404 and leaves the state unchanged. -/
def applyOp (st : AppState) (op : AdminOp) : AppState :=
  match op with
  | .generate tok now => generate_link st tok now
  | .toggle link_id => (toggle_link_status st link_id).getD st

/-! ### Helper lemmas about `activeCount` and link ids -/

theorem activeCount_append (a b : List AccessLink) :
    activeCount (a ++ b) = activeCount a + activeCount b := by
  simp [activeCount, List.filter_append]

theorem activeCount_cons (x : AccessLink) (t : List AccessLink) :
    activeCount (x :: t) = (if x.is_active = true then 1 else 0) + activeCount t := by
  by_cases hx : x.is_active = true
  · simp [activeCount, List.filter_cons, hx, Nat.add_comm]
  · simp [activeCount, List.filter_cons, hx]

theorem activeCount_deactivateAll (ls : List AccessLink) :
    activeCount (deactivateAll ls) = 0 := by
  induction ls with
  | nil => rfl
  | cons x t ih => simpa [deactivateAll, activeCount_cons] using ih

theorem activeCount_generate (st : AppState) (tok : String) (now : Nat) :
    activeCount (generate_link st tok now).links = 1 := by
  show activeCount (deactivateAll st.links ++ [_]) = 1
  rw [activeCount_append, activeCount_deactivateAll]
  rfl

theorem activeCount_setActive_eq_zero (t : List AccessLink) (lid : Nat)
    (h : ∀ l ∈ t, l.id ≠ lid) :
    activeCount (t.map (fun l => { l with is_active := l.id == lid })) = 0 := by
  induction t with
  | nil => rfl
  | cons x t ih =>
    have hx : (x.id == lid) = false := by
      simpa using h x (List.mem_cons_self x t)
    have ht : ∀ l ∈ t, l.id ≠ lid := fun l hl => h l (List.mem_cons_of_mem x hl)
    simpa [activeCount_cons, hx] using ih ht

theorem activeCount_setActive_le_one (ls : List AccessLink) (lid : Nat)
    (h : (ls.map (fun l => l.id)).Nodup) :
    activeCount (ls.map (fun l => { l with is_active := l.id == lid })) ≤ 1 := by
  induction ls with
  | nil => exact Nat.zero_le 1
  | cons x t ih =>
    rw [List.map_cons, List.nodup_cons] at h
    rw [List.map_cons, activeCount_cons]
    by_cases hx : x.id = lid
    · have ht : ∀ l ∈ t, l.id ≠ lid := by
        intro l hl hlid
        exact h.1 (by simpa [hlid, hx] using List.mem_map_of_mem (fun l => l.id) hl)
      rw [activeCount_setActive_eq_zero t lid ht]
      split <;> omega
    · have hxb : (x.id == lid) = false := by simpa using hx
      simpa [hxb] using ih h.2

theorem activeCount_map_le (ls : List AccessLink) (f : AccessLink → AccessLink)
    (h : ∀ l, (f l).is_active = true → l.is_active = true) :
    activeCount (ls.map f) ≤ activeCount ls := by
  induction ls with
  | nil => exact Nat.le_refl 0
  | cons x t ih =>
    by_cases hfx : (f x).is_active = true
    · have hx := h x hfx
      simp [activeCount, List.filter, hfx, hx] at ih ⊢
      omega
    · have hfx' : (f x).is_active = false := by simpa using hfx
      cases hx : x.is_active with
      | false => simpa [activeCount, List.filter, hfx', hx] using ih
      | true =>
        simp [activeCount, List.filter, hfx', hx] at ih ⊢
        omega

theorem foldl_max_le_acc (ls : List AccessLink) (acc : Nat) :
    acc ≤ ls.foldl (fun m l => max m l.id) acc := by
  induction ls generalizing acc with
  | nil => exact Nat.le_refl acc
  | cons x t ih =>
    exact Nat.le_trans (Nat.le_max_left acc x.id) (ih (max acc x.id))

theorem id_le_foldl_max (ls : List AccessLink) (l : AccessLink) (h : l ∈ ls) (acc : Nat) :
    l.id ≤ ls.foldl (fun m l => max m l.id) acc := by
  induction ls generalizing acc with
  | nil => exact absurd h (List.not_mem_nil l)
  | cons x t ih =>
    rcases List.mem_cons.mp h with rfl | ht
    · exact Nat.le_trans (Nat.le_max_right acc l.id)
        (foldl_max_le_acc t (max acc l.id))
    · exact ih ht (max acc x.id)

theorem nextLinkId_not_mem (ls : List AccessLink) :
    nextLinkId ls ∉ ls.map (fun l => l.id) := by
  intro hmem
  rcases List.mem_map.mp hmem with ⟨l, hl, hid⟩
  have h1 := id_le_foldl_max ls l hl 0
  rw [hid, nextLinkId] at h1
  exact Nat.not_succ_le_self _ h1

theorem ids_map_keep (ls : List AccessLink) (f : AccessLink → AccessLink)
    (h : ∀ l, (f l).id = l.id) :
    (ls.map f).map (fun l => l.id) = ls.map (fun l => l.id) := by
  induction ls with
  | nil => rfl
  | cons x t ih => simp [h, ih]

theorem ids_generate (st : AppState) (tok : String) (now : Nat) :
    (generate_link st tok now).links.map (fun l => l.id) =
      st.links.map (fun l => l.id) ++ [nextLinkId st.links] := by
  simp only [generate_link, deactivateAll, List.map_append]
  rw [ids_map_keep st.links (fun l => { l with is_active := false }) (fun _ => rfl)]
  rfl

theorem ids_toggle (st : AppState) (lid : Nat) (st' : AppState)
    (h : toggle_link_status st lid = some st') :
    st'.links.map (fun l => l.id) = st.links.map (fun l => l.id) := by
  unfold toggle_link_status at h
  cases hf : st.links.find? (fun l => l.id == lid) with
  | none => rw [hf] at h; exact absurd h (by simp)
  | some link =>
    rw [hf] at h
    by_cases ha : link.is_active = true
    · simp [ha] at h
      subst h
      exact ids_map_keep st.links _ (fun l => by by_cases hl : l.id = lid <;> simp [hl])
    · have ha' : link.is_active = false := by simpa using ha
      simp [ha'] at h
      subst h
      exact ids_map_keep st.links _ (fun _ => rfl)

/-- Well-formedness of the link table: primary keys are unique (the DB
constraint) and at most one row is active (the spec invariant). -/
def LinksWF (st : AppState) : Prop :=
  (st.links.map (fun l => l.id)).Nodup ∧ activeCount st.links ≤ 1

theorem LinksWF_generate (st : AppState) (tok : String) (now : Nat)
    (h : LinksWF st) : LinksWF (generate_link st tok now) := by
  constructor
  · rw [ids_generate]
    simp [List.nodup_append, h.1]
    intro a ha hid
    exact nextLinkId_not_mem st.links (hid ▸ List.mem_map_of_mem (fun l => l.id) ha)
  · rw [activeCount_generate]

theorem LinksWF_toggle (st : AppState) (lid : Nat) (st' : AppState)
    (h : LinksWF st) (ht : toggle_link_status st lid = some st') : LinksWF st' := by
  refine ⟨(ids_toggle st lid st' ht) ▸ h.1, ?_⟩
  unfold toggle_link_status at ht
  cases hf : st.links.find? (fun l => l.id == lid) with
  | none => rw [hf] at ht; exact absurd ht (by simp)
  | some link =>
    rw [hf] at ht
    by_cases ha : link.is_active = true
    · simp [ha] at ht
      subst ht
      exact Nat.le_trans
        (activeCount_map_le st.links _ (fun l => by by_cases hl : l.id = lid <;> simp [hl]))
        h.2
    · have ha' : link.is_active = false := by simpa using ha
      simp [ha'] at ht
      subst ht
      exact activeCount_setActive_le_one st.links lid h.1

theorem LinksWF_applyOp (st : AppState) (op : AdminOp) (h : LinksWF st) :
    LinksWF (applyOp st op) := by
  cases op with
  | generate tok now => exact LinksWF_generate st tok now h
  | toggle lid =>
    cases ht : toggle_link_status st lid with
    | none => simpa [applyOp, ht] using h
    | some st' =>
      simpa [applyOp, ht] using LinksWF_toggle st lid st' h ht

theorem LinksWF_foldl (st : AppState) (h : LinksWF st) (ops : List AdminOp) :
    LinksWF (ops.foldl applyOp st) := by
  induction ops generalizing st with
  | nil => exact h
  | cons op t ih => exact ih (applyOp st op) (LinksWF_applyOp st op h)

theorem mem_deactivateAll_inactive (ls : List AccessLink) (a : AccessLink)
    (ha : a ∈ deactivateAll ls) : a.is_active = false := by
  rcases List.mem_map.mp ha with ⟨l, -, rfl⟩
  rfl

theorem mem_deactivateAll_of_mem (ls : List AccessLink) (l : AccessLink) (h : l ∈ ls) :
    { l with is_active := false } ∈ deactivateAll ls :=
  List.mem_map_of_mem _ h

theorem forall₂_map_self {R : AccessLink → AccessLink → Prop}
    (f : AccessLink → AccessLink) (ls : List AccessLink) (h : ∀ l ∈ ls, R l (f l)) :
    List.Forall₂ R ls (ls.map f) := by
  induction ls with
  | nil => exact List.Forall₂.nil
  | cons x t ih =>
    exact List.Forall₂.cons (h x (List.mem_cons_self x t))
      (ih (fun l hl => h l (List.mem_cons_of_mem x hl)))

/-! ### Concrete states used by the witnesses -/

/-- Two links, the second one active. -/
def demoLinks : List AccessLink :=
  [{ id := 1, token := "tok-A", is_active := false, created_at := 0 },
   { id := 2, token := "tok-B", is_active := true, created_at := 1 }]

/-- Two attendees registered through `tok-B`. -/
def demoAttendees : List Attendee :=
  [{ id := 1, name := "Jo", role := "Guest", group := none,
     timestamp := ⟨2024, 3, 7, 9, 5, 30⟩, access_token_used := "tok-B" },
   { id := 2, name := "Sam", role := "Member", group := some "Alpha",
     timestamp := ⟨2024, 3, 8, 10, 0, 0⟩, access_token_used := "tok-B" }]

/-- Demo state with an authenticated admin session. -/
def demoState : AppState :=
  { links := demoLinks, attendees := demoAttendees, admin_logged_in := true }

/-- Demo state without an admin session. -/
def loggedOutState : AppState :=
  { links := demoLinks, attendees := demoAttendees, admin_logged_in := false }

/-- A state whose only link is active, for the zero-active-links scenario. -/
def oneActiveState : AppState :=
  { links := [{ id := 1, token := "tok", is_active := true, created_at := 0 }],
    attendees := [], admin_logged_in := true }

/-! ### Claims -/

/-- C1: for every sequence of `generate_link`/`toggle_link_status`
operations starting from a state with unique link ids (the primary-key
constraint) and at most one active link, at most one `AccessLink` row has
`is_active = true` after each operation completes (applied to every
prefix of the sequence, since the sequence is arbitrary). -/
theorem c1_at_most_one_active_link (st : AppState)
    (hids : (st.links.map (fun l => l.id)).Nodup)
    (hinv : activeCount st.links ≤ 1) (ops : List AdminOp) :
    activeCount ((ops.foldl applyOp st).links) ≤ 1 :=
  (LinksWF_foldl st ⟨hids, hinv⟩ ops).2

theorem c1_at_most_one_active_link_witness :
    activeCount (([AdminOp.generate "t1" 2, AdminOp.toggle 1, AdminOp.generate "t2" 3,
        AdminOp.toggle 99].foldl applyOp demoState).links) ≤ 1 :=
  c1_at_most_one_active_link demoState (by decide) (by decide) _

/-- C6: `generate_link` deactivates every previously existing link (any
link of the new state sharing an id with an old link is inactive), inserts
exactly one new row, that row carries the freshly generated token and
`is_active = true`, and exactly one link is active afterwards; moreover in
the generate-A-then-generate-B scenario the A row ends inactive and the B
row active. -/
theorem c6_generate_link (st : AppState) (tokA tokB : String) (nA nB : Nat) :
    (∀ l ∈ st.links, ∀ l' ∈ (generate_link st tokA nA).links,
        l'.id = l.id → l'.is_active = false)
    ∧ (generate_link st tokA nA).links.length = st.links.length + 1
    ∧ newLink st.links tokA nA ∈ (generate_link st tokA nA).links
    ∧ (newLink st.links tokA nA).token = tokA
    ∧ (newLink st.links tokA nA).is_active = true
    ∧ activeCount (generate_link st tokA nA).links = 1
    ∧ { newLink st.links tokA nA with is_active := false }
        ∈ (generate_link (generate_link st tokA nA) tokB nB).links
    ∧ newLink (generate_link st tokA nA).links tokB nB
        ∈ (generate_link (generate_link st tokA nA) tokB nB).links := by
  refine ⟨?_, ?_, ?_, rfl, rfl, activeCount_generate st tokA nA, ?_, ?_⟩
  · intro l hl l' hl' hid
    have hl'' : l' ∈ deactivateAll st.links ++ [newLink st.links tokA nA] := hl'
    rcases List.mem_append.mp hl'' with hmem | hmem
    · exact mem_deactivateAll_inactive _ _ hmem
    · exfalso
      have hl'eq : l' = newLink st.links tokA nA := by simpa using hmem
      subst hl'eq
      apply nextLinkId_not_mem st.links
      have hid' : nextLinkId st.links = l.id := hid
      rw [hid']
      exact List.mem_map_of_mem (fun l => l.id) hl
  · simp [generate_link, deactivateAll]
  · exact List.mem_append_right _ (List.mem_singleton_self _)
  · have hmemA : newLink st.links tokA nA ∈ (generate_link st tokA nA).links :=
      List.mem_append_right _ (List.mem_singleton_self _)
    have := mem_deactivateAll_of_mem (generate_link st tokA nA).links _ hmemA
    exact List.mem_append_left _ this
  · exact List.mem_append_right _ (List.mem_singleton_self _)

theorem c6_generate_link_witness :
    ({ id := 1, token := "A", is_active := false, created_at := 5 } : AccessLink)
      ∈ (generate_link (generate_link { links := [], attendees := [], admin_logged_in := true }
          "A" 5) "B" 6).links
    ∧ ({ id := 2, token := "B", is_active := true, created_at := 6 } : AccessLink)
      ∈ (generate_link (generate_link { links := [], attendees := [], admin_logged_in := true }
          "A" 5) "B" 6).links := by
  have h := c6_generate_link { links := [], attendees := [], admin_logged_in := true } "A" "B" 5 6
  exact ⟨h.2.2.2.2.2.2.1, h.2.2.2.2.2.2.2⟩

/-- C5: `toggle_link_status` returns `none` (the 404) exactly when no link
has the requested id; when the target exists and is inactive the new state
deactivates every link and activates exactly the target (same metadata,
`is_active` iff the id matches); when the target is active only the target
is flipped off, every other link keeps its flag — and this can leave zero
active links, as the concrete `oneActiveState` run shows. -/
theorem c5_toggle_link (st : AppState) (lid : Nat) :
    (toggle_link_status st lid = none ↔ ∀ l ∈ st.links, l.id ≠ lid)
    ∧ (∀ link, st.links.find? (fun l => l.id == lid) = some link →
        ∃ st', toggle_link_status st lid = some st'
          ∧ st'.attendees = st.attendees
          ∧ st'.admin_logged_in = st.admin_logged_in
          ∧ (link.is_active = false →
              List.Forall₂ (fun l l' => l'.id = l.id ∧ l'.token = l.token
                ∧ l'.created_at = l.created_at ∧ l'.is_active = (l.id == lid))
                st.links st'.links)
          ∧ (link.is_active = true →
              List.Forall₂ (fun l l' => l'.id = l.id ∧ l'.token = l.token
                ∧ l'.created_at = l.created_at
                ∧ l'.is_active = (if l.id = lid then false else l.is_active))
                st.links st'.links))
    ∧ activeCount ((toggle_link_status oneActiveState 1).getD oneActiveState).links = 0 := by
  refine ⟨⟨?_, ?_⟩, ?_, by decide⟩
  · intro hnone l hl hlid
    unfold toggle_link_status at hnone
    cases hf : st.links.find? (fun l => l.id == lid) with
    | none =>
      rw [List.find?_eq_none] at hf
      have := hf l hl
      simp [hlid] at this
    | some link =>
      rw [hf] at hnone
      by_cases ha : link.is_active = true <;> simp [ha] at hnone
  · intro hall
    unfold toggle_link_status
    have hf : st.links.find? (fun l => l.id == lid) = none := by
      rw [List.find?_eq_none]
      intro l hl
      simpa using hall l hl
    rw [hf]
  · intro link hf
    unfold toggle_link_status
    rw [hf]
    by_cases ha : link.is_active = true
    · refine ⟨{ st with links := st.links.map (fun l =>
          if l.id == lid then { l with is_active := false } else l) },
        by simp [ha], rfl, rfl, ?_, ?_⟩
      · intro hfalse
        rw [ha] at hfalse
        exact absurd hfalse (by simp)
      · intro _
        apply forall₂_map_self
        intro l _
        by_cases hlid : l.id = lid <;> simp [hlid]
    · have ha' : link.is_active = false := by simpa using ha
      refine ⟨{ st with links := st.links.map (fun l => { l with is_active := l.id == lid }) },
        by simp [ha'], rfl, rfl, ?_, ?_⟩
      · intro _
        apply forall₂_map_self
        intro l _
        exact ⟨rfl, rfl, rfl, rfl⟩
      · intro htrue
        rw [ha'] at htrue
        exact absurd htrue (by simp)

theorem c5_toggle_link_witness :
    toggle_link_status demoState 99 = none
    ∧ (∃ st', toggle_link_status demoState 1 = some st'
        ∧ List.Forall₂ (fun l l' => l'.id = l.id ∧ l'.token = l.token
            ∧ l'.created_at = l.created_at ∧ l'.is_active = (l.id == 1))
            demoState.links st'.links) := by
  have h99 := c5_toggle_link demoState 99
  have h1 := c5_toggle_link demoState 1
  refine ⟨h99.1.mpr (by decide), ?_⟩
  obtain ⟨st', he, -, -, hin, -⟩ := h1.2.1
    { id := 1, token := "tok-A", is_active := false, created_at := 0 } (by decide)
  exact ⟨st', he, hin rfl⟩

/-- C2: a POST to `/register/{token}` when no link with that token is
active returns the 404 page and leaves the whole state (in particular the
`Attendee` table) unchanged.  The state is arbitrary, so the conclusion
holds regardless of any earlier validity of the token: the active-link
lookup runs afresh inside `register` on every request. -/
theorem c2_register_inactive_token (st : AppState) (token : String)
    (name role group : Option String) (now : Timestamp)
    (h : ∀ l ∈ st.links, ¬(l.token = token ∧ l.is_active = true)) :
    register st .post token name role group now = (.notFound, st) := by
  have hf : st.links.find? (fun l => l.token == token && l.is_active) = none := by
    rw [List.find?_eq_none]
    intro l hl
    simpa using h l hl
  unfold register
  rw [hf]

theorem c2_register_inactive_token_witness :
    register loggedOutState .post "tok-A" (some "Jo") (some "Guest") none ⟨2024, 1, 1, 0, 0, 0⟩
      = (.notFound, loggedOutState) :=
  c2_register_inactive_token loggedOutState "tok-A" (some "Jo") (some "Guest") none
    ⟨2024, 1, 1, 0, 0, 0⟩ (by decide)

/-- C4: a POST to `/register/{token}` through an active link, with `name`
or `role` missing (`none`) or empty (`""`), creates no `Attendee` row: the
state is returned unchanged and the response is the redirect back to
`/register/{token}` (the form redisplayed with the flashed error and the
token preserved in the URL). -/
theorem c4_register_validation (st : AppState) (token : String)
    (name role group : Option String) (now : Timestamp)
    (hactive : ∃ l ∈ st.links, l.token = token ∧ l.is_active = true)
    (hempty : name.getD "" = "" ∨ role.getD "" = "") :
    register st .post token name role group now = (.validationError token, st) := by
  obtain ⟨l, hl, hcond⟩ := hactive
  unfold register
  cases hf : st.links.find? (fun x => x.token == token && x.is_active) with
  | none =>
    rw [List.find?_eq_none] at hf
    have := hf l hl
    simp [hcond.1, hcond.2] at this
  | some _ =>
    rcases hempty with he | he <;> simp [he]

theorem c4_register_validation_witness :
    register demoState .post "tok-B" none (some "Guest") (some "Alpha") ⟨2024, 1, 1, 0, 0, 0⟩
      = (.validationError "tok-B", demoState)
    ∧ register demoState .post "tok-B" (some "Jo") (some "") none ⟨2024, 1, 1, 0, 0, 0⟩
      = (.validationError "tok-B", demoState) :=
  ⟨c4_register_validation demoState "tok-B" none (some "Guest") (some "Alpha")
      ⟨2024, 1, 1, 0, 0, 0⟩ (by decide) (Or.inl rfl),
   c4_register_validation demoState "tok-B" (some "Jo") (some "") none
      ⟨2024, 1, 1, 0, 0, 0⟩ (by decide) (Or.inr rfl)⟩

/-- C9: from a session without the admin flag, a POST to `/admin/login`
sets `admin_logged_in = true` iff the submitted username and password both
equal the configured cleartext credentials; on any mismatch the state is
unchanged (flag not set) and the response is the single generic failure
message, identical whichever field was wrong. -/
theorem c9_login (adminUsername adminPassword : String) (st : AppState)
    (hout : st.admin_logged_in = false) (u p : Option String) :
    ((admin_login adminUsername adminPassword st .post u p).2.admin_logged_in = true
      ↔ (u = some adminUsername ∧ p = some adminPassword))
    ∧ (¬(u = some adminUsername ∧ p = some adminPassword) →
        admin_login adminUsername adminPassword st .post u p =
          (.loginFailed invalidCredentialsMessage, st)) := by
  have hcond : (u == some adminUsername && p == some adminPassword) = true
      ↔ (u = some adminUsername ∧ p = some adminPassword) := by simp
  by_cases hm : u = some adminUsername ∧ p = some adminPassword
  · have hb := hcond.mpr hm
    simp [admin_login, hout, hb, hm]
  · have hb : (u == some adminUsername && p == some adminPassword) = false := by
      cases hub : (u == some adminUsername && p == some adminPassword) with
      | false => rfl
      | true => exact absurd (hcond.mp hub) hm
    simp [admin_login, hout, hb, hm]

theorem c9_login_witness :
    admin_login "admin" "password" loggedOutState .post (some "admin") (some "wrong")
      = (.loginFailed invalidCredentialsMessage, loggedOutState)
    ∧ admin_login "admin" "password" loggedOutState .post (some "intruder") (some "password")
      = (.loginFailed invalidCredentialsMessage, loggedOutState)
    ∧ (admin_login "admin" "password" loggedOutState .post (some "admin")
        (some "password")).2.admin_logged_in = true := by
  have h1 := c9_login "admin" "password" loggedOutState (by decide) (some "admin") (some "wrong")
  have h2 := c9_login "admin" "password" loggedOutState (by decide) (some "intruder")
    (some "password")
  have h3 := c9_login "admin" "password" loggedOutState (by decide) (some "admin")
    (some "password")
  exact ⟨h1.2 (by simp), h2.2 (by simp), h3.1.mpr ⟨rfl, rfl⟩⟩

/-- C10: when the admin session flag is already set, any request to
`/admin/login` — GET or POST, with any credentials, including wrong ones —
redirects to the dashboard and leaves the state (hence the flag)
untouched; the credential comparison is never reached. -/
theorem c10_login_already_authenticated (adminUsername adminPassword : String)
    (st : AppState) (hin : st.admin_logged_in = true)
    (method : Method) (u p : Option String) :
    admin_login adminUsername adminPassword st method u p = (.redirectDashboard, st) := by
  simp [admin_login, hin]

theorem c10_login_already_authenticated_witness :
    admin_login "admin" "password" demoState .post (some "intruder") (some "wrong")
      = (.redirectDashboard, demoState)
    ∧ admin_login "admin" "password" demoState .get none none
      = (.redirectDashboard, demoState) :=
  ⟨c10_login_already_authenticated "admin" "password" demoState (by decide) .post
      (some "intruder") (some "wrong"),
   c10_login_already_authenticated "admin" "password" demoState (by decide) .get none none⟩

/-- C3 counterexample: `/admin/logout` carries no `login_required` guard
in the source; invoked without the admin session flag it executes (popping
the absent flag and redirecting to the login view) instead of failing with
Unauthorized, so the claim as stated is false for logout. -/
theorem c3_counterexample_logout_unguarded :
    (admin_logout { links := [], attendees := [], admin_logged_in := false }).1
        = AdminResult.loggedOut
    ∧ (admin_logout { links := [], attendees := [], admin_logged_in := false }).1
        ≠ AdminResult.unauthorized := by
  exact ⟨rfl, by decide⟩

/-- C3 (amended): each of the guarded admin operations — dashboard,
generate-link, toggle-link, export-csv — invoked without the admin session
flag fails with Unauthorized (redirect to the login view) and changes no
state; logout, which is not wrapped by the guard, still executes: it pops
the (absent) flag and redirects to the login view, which also leaves the
state unchanged but is not an Unauthorized failure. -/
theorem c3_admin_guard (st : AppState) (h : st.admin_logged_in = false)
    (sort_by order tok : String) (now : Nat) (lid : Nat) :
    admin_dashboard_route sort_by order st = (.unauthorized, st)
    ∧ generate_link_route tok now st = (.unauthorized, st)
    ∧ toggle_link_route lid st = (.unauthorized, st)
    ∧ export_csv_route st = (.unauthorized, st)
    ∧ admin_logout st = (.loggedOut, st) := by
  obtain ⟨links, attendees, flag⟩ := st
  have hflag : flag = false := h
  subst hflag
  refine ⟨?_, ?_, ?_, ?_, ?_⟩ <;>
    simp [admin_dashboard_route, generate_link_route, toggle_link_route,
      export_csv_route, login_required, admin_logout]

theorem c3_admin_guard_witness :
    admin_dashboard_route "name" "asc" loggedOutState = (.unauthorized, loggedOutState)
    ∧ generate_link_route "t" 7 loggedOutState = (.unauthorized, loggedOutState)
    ∧ toggle_link_route 2 loggedOutState = (.unauthorized, loggedOutState)
    ∧ export_csv_route loggedOutState = (.unauthorized, loggedOutState)
    ∧ admin_logout loggedOutState = (.loggedOut, loggedOutState) :=
  c3_admin_guard loggedOutState (by decide) "name" "asc" "t" 7 2

/-- C7: the dashboard's `list(sortBy, order)` with a `sortBy` outside
{name, role, group, timestamp} returns exactly the result of
`sortBy = "timestamp"`, and with an `order` that is neither `"asc"` nor
`"desc"` returns exactly the result of `order = "desc"` (the code treats
everything but `"asc"` as descending). -/
theorem c7_dashboard_fallbacks (st : AppState) (sort_by order : String) :
    (sort_by ∉ sortable_columns →
      admin_dashboard st sort_by order = admin_dashboard st "timestamp" order)
    ∧ (order ≠ "asc" ∧ order ≠ "desc" →
      admin_dashboard st sort_by order = admin_dashboard st sort_by "desc") := by
  constructor
  · intro h
    have ht : "timestamp" ∈ sortable_columns := by decide
    simp [admin_dashboard, dashboardAttendees, h, ht]
  · intro h
    have ho : (order == "asc") = false := by simpa using h.1
    have hd : (("desc" : String) == "asc") = false := by decide
    simp [admin_dashboard, dashboardAttendees, ho, hd]

theorem c7_dashboard_fallbacks_witness :
    admin_dashboard demoState "registered" "upward" = admin_dashboard demoState "timestamp" "upward"
    ∧ admin_dashboard demoState "name" "upward" = admin_dashboard demoState "name" "desc" := by
  have h1 := c7_dashboard_fallbacks demoState "registered" "upward"
  have h2 := c7_dashboard_fallbacks demoState "name" "upward"
  exact ⟨h1.1 (by decide), h2.2 ⟨by decide, by decide⟩⟩

/-- C8: `export_csv` produces the exact header row
`ID,Name,Role,Group,Timestamp (UTC),Access Token Used` followed by one
data row per `Attendee` row (so data-row count = table row count), the
rows being the attendees ordered by timestamp descending; each row's
timestamp field is the attendee's timestamp rendered by the
`%Y-%m-%d %H:%M:%S` format (zero-padded, as the concrete sample shows). -/
theorem c8_export_csv (attendees : List Attendee) :
    ∃ sorted : List Attendee,
      export_csv attendees = csvHeader :: sorted.map attendeeRow
      ∧ sorted.Perm attendees
      ∧ List.Pairwise (fun a b => b.timestamp.key ≤ a.timestamp.key) sorted
      ∧ (export_csv attendees).length = attendees.length + 1
      ∧ csvHeader = ["ID", "Name", "Role", "Group", "Timestamp (UTC)", "Access Token Used"]
      ∧ (∀ a : Attendee, (attendeeRow a).get? 4 = some a.timestamp.strftime)
      ∧ Timestamp.strftime ⟨2024, 3, 7, 9, 5, 30⟩ = "2024-03-07 09:05:30" := by
  refine ⟨attendees.mergeSort (fun a b => decide (b.timestamp.key ≤ a.timestamp.key)),
    rfl, List.mergeSort_perm _ _, ?_, ?_, rfl, fun a => rfl, by decide⟩
  · have htrans : ∀ (a b c : Attendee), decide (b.timestamp.key ≤ a.timestamp.key) = true →
        decide (c.timestamp.key ≤ b.timestamp.key) = true →
        decide (c.timestamp.key ≤ a.timestamp.key) = true := by
      intro a b c hab hbc
      simp at hab hbc ⊢
      omega
    have htotal : ∀ (a b : Attendee), (decide (b.timestamp.key ≤ a.timestamp.key)
        || decide (a.timestamp.key ≤ b.timestamp.key)) = true := by
      intro a b
      rcases Nat.le_total a.timestamp.key b.timestamp.key with h | h <;> simp [h]
    exact (List.sorted_mergeSort htrans htotal attendees).imp (fun hab => by simpa using hab)
  · simp [export_csv]

end AttendanceSystem
